import Mathlib

/-!
Verification development for a small study-help web application
(`app.py`): an answer resolver with a static question bank, an AI answer
cache, an AI MCQ generator with a deterministic fallback, and a
file-persisted study-schedule store.

The external generation capability (the LLM client) is modelled by an
explicit outcome value passed to each operation; JSON parsing of model
output is modelled by an explicit `parse` function argument; dates are
modelled as integer day numbers.
-/

/-- A JSON value, as produced by `json.loads`.  Objects are modelled as
ordered association lists (Python dicts preserve insertion order). -/
inductive Json where
  | null : Json
  | bool (b : Bool) : Json
  | num (q : ℚ) : Json
  | str (s : String) : Json
  | arr (elems : List Json) : Json
  | obj (fields : List (String × Json)) : Json
  deriving BEq, Repr

/-- Python truthiness of a JSON value (`if ai_plan:` etc.). -/
def jsonTruthy : Json → Bool
  | .null => false
  | .bool b => b
  | .num q => q != 0
  | .str s => s != ""
  | .arr elems => elems != []
  | .obj fields => fields != []

/-- Dictionary access `d[k]` / key test `k in d` on a JSON object. -/
def jsonGet (j : Json) (k : String) : Option Json :=
  match j with
  | .obj fields => fields.lookup k
  | _ => none

/-! ## Answer Resolver (`get_answer` and its globals) -/

/-- The static question bank `questions` from `app.py`: subject name to
an association of question text to canonical answer text. -/
def questions : List (String × List (String × String)) :=
  [("Math",
    [("What is 2+2?", "2+2 = 4"),
     ("What is 10-3?", "10-3 = 7"),
     ("What is correlation?",
      "Correlation measures the relationship between two variables.")]),
   ("Science",
    [("What is H2O?", "H2O is water"),
     ("Which planet is nearest to the sun?", "Mercury"),
     ("What is Ohm's law?",
      "Ohm's law states that V = IR, where V is voltage, I is current, and R is resistance.")]),
   ("English",
    [("Synonym of happy?", "Joyful"),
     ("Antonym of fast?", "Slow")]),
   ("Electronics",
    [("What does LED stand for?", "Light Emitting Diode"),
     ("What is the unit of electric current?", "Ampere")])]

/-- `questions.get(sub, {}).get(question)`. -/
def questions_get (sub question : String) : Option String :=
  ((questions.lookup sub).getD []).lookup question

/-- Python `str.strip()`: drop whitespace from both ends. -/
def pyStrip (s : String) : String :=
  String.mk (((s.data.dropWhile Char.isWhitespace).reverse.dropWhile
    Char.isWhitespace).reverse)

/-- Outcome of one call to the external generation capability
(`client.models.generate_content`): either the call raises, or it
returns a response whose `.text` is the given string. -/
inductive GenResult where
  | err : GenResult
  | ok (text : String) : GenResult

/-- Python dict assignment `d[k] = v`: overwrite in place when the key is
present, append otherwise. -/
def dictInsert (m : List (String × String)) (k v : String) :
    List (String × String) :=
  if (m.lookup k).isSome then
    m.map (fun p => if p.1 == k then (k, v) else p)
  else m ++ [(k, v)]

/-- The observable result of one `get_answer` call: the returned string,
the in-memory `ai_cache` afterwards, whether `ai_cache.json` was
rewritten, and whether the generation capability was invoked. -/
structure AnswerOutcome where
  answer : String
  cache : List (String × String)
  persisted : Bool
  invoked : Bool
  deriving Repr, DecidableEq

/-- Steps 2 and 3 of `get_answer`: cache lookup, then generation (the
code after the question-bank check in `app.py`). -/
def get_answer_tail (gen : GenResult) (ai_cache : List (String × String))
    (question : String) : AnswerOutcome :=
  -- 2. `if question in ai_cache: return ai_cache[question]`
  match ai_cache.lookup question with
  | some v =>
    { answer := v, cache := ai_cache, persisted := false, invoked := false }
  | none =>
    -- 3. the `try` block around the capability call
    match gen with
    | .err =>
      -- `except Exception: return "Sorry, the answer could not be generated."`
      { answer := "Sorry, the answer could not be generated.",
        cache := ai_cache, persisted := false, invoked := true }
    | .ok text =>
      -- `ans = response.text.strip()`; `ai_cache[question] = ans`;
      -- `json.dump(ai_cache, f)`;
      -- `return ans if ans else "Sorry, AI could not generate an answer."`
      let ans := pyStrip text
      { answer := if ans = "" then "Sorry, AI could not generate an answer." else ans,
        cache := dictInsert ai_cache question ans,
        persisted := true, invoked := true }

/-- `get_answer(sub, question)` from `app.py`.  `client` is `true` when
the capability is configured (`client is not None`); `gen` is the
outcome the capability would produce if invoked; `ai_cache` is the
global cache before the call. -/
def get_answer (client : Bool) (gen : GenResult)
    (ai_cache : List (String × String)) (sub question : String) :
    AnswerOutcome :=
  -- `if client is None: return "AI features are currently unavailable..."`
  if client = false then
    { answer := "AI features are currently unavailable. Please set your GEMINI_API_KEY in the .env file.",
      cache := ai_cache, persisted := false, invoked := false }
  else
    -- 1. `ans = questions.get(sub, {}).get(question)`; `if ans: return ans`
    match questions_get sub question with
    | some ans =>
      if ans = "" then get_answer_tail gen ai_cache question
      else { answer := ans, cache := ai_cache, persisted := false, invoked := false }
    | none => get_answer_tail gen ai_cache question

/-! ## MCQ Generator (`generate_ai_mcqs`) -/

/-- `s.find(c)` on a list of characters, accumulating the index. -/
def charsFind (cs : List Char) (c : Char) (i : Nat) : Int :=
  match cs with
  | [] => -1
  | d :: rest => if d = c then (i : Int) else charsFind rest c (i + 1)

/-- Python `str.find`: index of the first occurrence, `-1` if absent. -/
def strFind (s : String) (c : Char) : Int :=
  charsFind s.data c 0

/-- `s.rfind(c)` on a list of characters. -/
def charsRFind (cs : List Char) (c : Char) (i : Nat) : Int :=
  match cs with
  | [] => -1
  | d :: rest =>
    let r := charsRFind rest c (i + 1)
    if r ≠ -1 then r else if d = c then (i : Int) else -1

/-- Python `str.rfind`: index of the last occurrence, `-1` if absent. -/
def strRFind (s : String) (c : Char) : Int :=
  charsRFind s.data c 0

/-- Python slice `s[a:b]` for `0 ≤ a`. -/
def strSlice (s : String) (a b : Int) : String :=
  String.mk (((s.data).drop a.toNat).take (b - a).toNat)

/-- The `--- Safe JSON extraction ---` step shared by the generators:
strip the response text, locate the first `[` and the last `]`, and
return the slice between them; `none` when
`start == -1 or end == 0` (the `ValueError` path). -/
def extractArray (text : String) : Option String :=
  let t := pyStrip text
  let start := strFind t '['
  let stop := strRFind t ']' + 1
  if start = -1 ∨ stop = 0 then none
  else some (strSlice t start stop)

/-- One deterministic fallback MCQ, as the JSON object the route code
consumes: `{"question": "Sample <subject> question <i+1>?", ...}`. -/
def fallbackMCQ (subject : String) (i : Nat) : Json :=
  .obj [("question", .str ("Sample " ++ subject ++ " question " ++ toString (i + 1) ++ "?")),
        ("options", .arr [.str "Option A", .str "Option B", .str "Option C", .str "Option D"]),
        ("answer", .str "Option A")]

/-- The deterministic fallback list
(`[{...} for i in range(num_questions)]`), used both when the capability
is unavailable and on any failure of the AI path. -/
def fallbackMCQs (subject : String) (num_questions : Nat) : List Json :=
  (List.range num_questions).map (fallbackMCQ subject)

/-- The per-element validation filter of `generate_ai_mcqs`:
`isinstance(q, dict)`, the three keys present, `options` a list of
exactly 4 items, and `answer` one of the options. -/
def isValidMCQ (q : Json) : Bool :=
  match q with
  | .obj _ =>
    (jsonGet q "question").isSome &&
    (jsonGet q "options").isSome &&
    (jsonGet q "answer").isSome &&
    (match jsonGet q "options" with
     | some (.arr opts) =>
       opts.length == 4 &&
       (match jsonGet q "answer" with
        | some a => opts.contains a
        | none => false)
     | _ => false)
  | _ => false

/-- Python iteration `for q in mcqs` over a `json.loads` result:
arrays yield their elements, dicts yield their keys, strings yield
their one-character substrings; other values raise `TypeError`
(modelled as `none`). -/
def iterElems (j : Json) : Option (List Json) :=
  match j with
  | .arr elems => some elems
  | .obj fields => some (fields.map (fun p => .str p.1))
  | .str s => some (s.data.map (fun c => .str (String.mk [c])))
  | _ => none

/-- `generate_ai_mcqs(subject, num_questions, difficulty)` from
`app.py`.  `parse` models `json.loads` on the extracted slice (`none`
when it raises); `outcome` is the capability state: `.unavailable` for
`client is None`, `.raised` when the call raises, `.ok text` for a
response with that text.  The `difficulty` argument only affects the
prompt, which is abstracted away with the capability call. -/
inductive GenOutcome where
  | unavailable : GenOutcome
  | raised : GenOutcome
  | ok (text : String) : GenOutcome

def generate_ai_mcqs (parse : String → Option Json) (outcome : GenOutcome)
    (subject : String) (num_questions : Nat) : List Json :=
  match outcome with
  | .unavailable => fallbackMCQs subject num_questions
  | .raised => fallbackMCQs subject num_questions
  | .ok text =>
    match extractArray text with
    | none => fallbackMCQs subject num_questions
    | some slice =>
      match parse slice with
      | none => fallbackMCQs subject num_questions
      | some j =>
        match iterElems j with
        | none => fallbackMCQs subject num_questions
        | some elems =>
          let validated_mcqs := elems.filter isValidMCQ
          -- `if not validated_mcqs: raise ValueError(...)`, caught below
          if validated_mcqs.isEmpty then fallbackMCQs subject num_questions
          else validated_mcqs

/-! ## Schedule Store

Dates are modelled as integer day numbers (the code formats and parses
`%Y-%m-%d` strings; only the day difference `(current_date -
start_date).days` is ever used).  Python floats are modelled as exact
rationals, with `round(x, 1)` modelled as round-half-to-even at one
decimal place. -/

/-- Round-half-to-even to an integer, as Python `round` does on an
exactly-representable value. -/
def rhe (q : ℚ) : ℤ :=
  if q - ⌊q⌋ < 1 / 2 then ⌊q⌋
  else if 1 / 2 < q - ⌊q⌋ then ⌊q⌋ + 1
  else if ⌊q⌋ % 2 = 0 then ⌊q⌋ else ⌊q⌋ + 1

/-- Python `round(x, 1)`. -/
def round1 (q : ℚ) : ℚ :=
  (rhe (q * 10) : ℚ) / 10

/-- One entry of `EXAM_PRESETS`. -/
structure ExamPreset where
  name : String
  subjects : List String
  duration_weeks : Int
  description : String
  deriving Repr, DecidableEq

/-- The static `EXAM_PRESETS` table from `app.py`. -/
def EXAM_PRESETS : List (String × ExamPreset) :=
  [("GATE",
    { name := "GATE (Graduate Aptitude Test in Engineering)",
      subjects := ["Engineering Mathematics", "General Aptitude", "Technical Subject", "Data Structures", "Algorithms"],
      duration_weeks := 24,
      description := "Comprehensive preparation for GATE exam" }),
   ("JEE",
    { name := "JEE (Joint Entrance Examination)",
      subjects := ["Physics", "Chemistry", "Mathematics"],
      duration_weeks := 52,
      description := "Complete JEE Main and Advanced preparation" }),
   ("NEET",
    { name := "NEET (National Eligibility cum Entrance Test)",
      subjects := ["Physics", "Chemistry", "Biology (Botany)", "Biology (Zoology)"],
      duration_weeks := 48,
      description := "Medical entrance exam preparation" }),
   ("CAT",
    { name := "CAT (Common Admission Test)",
      subjects := ["Quantitative Ability", "Verbal Ability", "Data Interpretation", "Logical Reasoning"],
      duration_weeks := 32,
      description := "MBA entrance exam preparation" }),
   ("UPSC",
    { name := "UPSC Civil Services",
      subjects := ["History", "Geography", "Polity", "Economy", "Science & Technology", "Current Affairs"],
      duration_weeks := 52,
      description := "Civil Services examination preparation" }),
   ("Custom",
    { name := "Custom Exam Preparation",
      subjects := [],
      duration_weeks := 12,
      description := "Create your own study schedule" })]

/-- A stored study-schedule record (the dict built by
`create_schedule`).  `current_week` and `progress` are absent at
creation and only appear once `view_schedule` assigns them. -/
structure StudySchedule where
  id : Nat
  name : String
  exam_type : String
  subjects : List String
  weeks : Int
  hours_per_day : Int
  created_date : Int
  start_date : Int
  status : String
  ai_plan : Option Json
  current_week : Option Int
  progress : Option ℚ
  deriving Repr

/-- The schedule store state: the in-memory global `study_schedules`
and the contents of `study_schedules.json`. -/
structure SchedState where
  store : List StudySchedule
  file : List StudySchedule
  deriving Repr

/-- `save_schedules()`: rewrite the whole persistence file from the
in-memory collection. -/
def save_schedules (st : SchedState) : SchedState :=
  { st with file := st.store }

/-- The POST branch of `create_schedule` in `app.py`.  `today` is the
current date; `plan` is the value returned by
`generate_ai_study_plan` (`none` when it returned `None`); the
remaining arguments are the parsed form fields, with `start_date`
`none` when the form did not supply one. -/
def create_schedule (today : Int) (plan : Option Json) (st : SchedState)
    (exam_type custom_name : String) (weeks hours_per_day : Int)
    (subjects : List String) (start_date : Option Int) :
    StudySchedule × SchedState :=
  -- `if exam_type in EXAM_PRESETS and exam_type != "Custom": ...`
  let resolved :=
    match EXAM_PRESETS.lookup exam_type with
    | some preset =>
      if exam_type = "Custom" then
        ((if custom_name = "" then "Custom Study Plan" else custom_name), subjects)
      else
        (preset.name, if subjects = [] then preset.subjects else subjects)
    | none =>
      ((if custom_name = "" then "Custom Study Plan" else custom_name), subjects)
  let schedule : StudySchedule :=
    { id := st.store.length + 1,
      name := resolved.1,
      exam_type := exam_type,
      subjects := resolved.2,
      weeks := weeks,
      hours_per_day := hours_per_day,
      created_date := today,
      start_date := start_date.getD today,
      status := "active",
      -- `if ai_plan: schedule["ai_plan"] = ai_plan`
      ai_plan := plan.bind (fun p => if jsonTruthy p then some p else none),
      current_week := none,
      progress := none }
  (schedule, save_schedules { st with store := st.store ++ [schedule] })

/-- Replace the first element satisfying `p` (the in-place mutation of
the record object found by `next(...)`). -/
def updateFirst (p : StudySchedule → Bool)
    (f : StudySchedule → StudySchedule) :
    List StudySchedule → List StudySchedule
  | [] => []
  | s :: rest => if p s then f s :: rest else s :: updateFirst p f rest

/-- `view_schedule(schedule_id)` from `app.py`: linear search by id,
then the progress computation, which assigns `current_week` and
`progress` into the found record object.  A missing record is the 404
path; `weeks == 0` is the `ZeroDivisionError` of
`(current_week / schedule["weeks"]) * 100`, which reaches the
framework's 500 handler. -/
def view_schedule (today : Int) (st : SchedState) (schedule_id : Nat) :
    Except String (StudySchedule × SchedState) :=
  match st.store.find? (fun s => s.id == schedule_id) with
  | none => .error "Schedule not found"
  | some s =>
    let days_elapsed := today - s.start_date
    let current_week := min (days_elapsed.fdiv 7 + 1) s.weeks
    if s.weeks = 0 then .error "ZeroDivisionError"
    else
      let progress := min (((current_week : ℚ) / (s.weeks : ℚ)) * 100) 100
      let s2 := { s with current_week := some current_week,
                         progress := some (round1 progress) }
      .ok (s2, { st with store := updateFirst (fun r => r.id == schedule_id) (fun _ => s2) st.store })

/-- `delete_schedule(schedule_id)` from `app.py`:
`study_schedules = [s for s in study_schedules if s["id"] != schedule_id]`
followed by `save_schedules()`. -/
def delete_schedule (st : SchedState) (schedule_id : Nat) : SchedState :=
  save_schedules { st with store := st.store.filter (fun s => s.id ≠ schedule_id) }

/-- Modelled from the spec: `delete(id) -> void` — "removes first
(only) matching record by id".  Stated for comparison with the
filter-based `delete_schedule` the code actually performs. -/
def removeFirstSpec (store : List StudySchedule) (schedule_id : Nat) :
    List StudySchedule :=
  store.eraseP (fun s => s.id == schedule_id)

/-- Collection states reachable from the empty store by create and
delete operations (the mutations the routes can perform). -/
inductive Reach : SchedState → Prop where
  | empty : Reach ⟨[], []⟩
  | create (today : Int) (plan : Option Json) (st : SchedState)
      (exam_type custom_name : String) (weeks hours_per_day : Int)
      (subjects : List String) (start_date : Option Int) :
      Reach st →
      Reach (create_schedule today plan st exam_type custom_name weeks
              hours_per_day subjects start_date).2
  | delete (st : SchedState) (schedule_id : Nat) :
      Reach st → Reach (delete_schedule st schedule_id)

/-- Collection states reachable from the empty store by create
operations only. -/
inductive ReachCreate : SchedState → Prop where
  | empty : ReachCreate ⟨[], []⟩
  | create (today : Int) (plan : Option Json) (st : SchedState)
      (exam_type custom_name : String) (weeks hours_per_day : Int)
      (subjects : List String) (start_date : Option Int) :
      ReachCreate st →
      ReachCreate (create_schedule today plan st exam_type custom_name weeks
              hours_per_day subjects start_date).2

/-! ## Helper lemmas -/

/-- A successful association-list lookup exhibits a member pair. -/
lemma mem_of_lookup_eq_some {α β : Type} [BEq α] [LawfulBEq α]
    {l : List (α × β)} {k : α} {b : β} (h : l.lookup k = some b) :
    (k, b) ∈ l := by
  rcases List.lookup_eq_some_iff.mp h with ⟨l1, l2, rfl, -⟩
  simp

/-- Every canonical answer in the static question bank is nonempty. -/
lemma questions_values_ne_empty : ∀ p ∈ questions, ∀ e ∈ p.2, e.2 ≠ "" := by
  decide

/-- A bank hit always yields a nonempty answer string. -/
lemma questions_get_ne_empty {sub q a : String}
    (h : questions_get sub q = some a) : a ≠ "" := by
  unfold questions_get at h
  cases hl : questions.lookup sub with
  | none => rw [hl] at h; simp at h
  | some l =>
    rw [hl] at h
    exact questions_values_ne_empty _ (mem_of_lookup_eq_some hl) _
      (mem_of_lookup_eq_some h)

/-! ## Claim C1: bank hits -/

/-- Claim C1, counterexample: when the generation capability is not
configured, `get_answer` returns the fixed unavailability message even
for a (subject, question) pair present in the question bank — the bank
lookup is not reached for that capability state. -/
theorem get_answer_unconfigured_bank_cex :
    questions_get "Math" "What is 2+2?" = some "2+2 = 4"
    ∧ (get_answer false GenResult.err [] "Math" "What is 2+2?").answer
      = "AI features are currently unavailable. Please set your GEMINI_API_KEY in the .env file."
    ∧ (get_answer false GenResult.err [] "Math" "What is 2+2?").answer ≠ "2+2 = 4" := by
  refine ⟨rfl, rfl, ?_⟩
  decide

/-- Claim C1 (amended): when the generation capability is configured,
`get_answer` on a (subject, question) pair present in the question bank
returns the exact canonical answer string, regardless of the cache
contents and of the generation outcome, without invoking generation and
without touching the cache. -/
theorem get_answer_bank_hit (gen : GenResult)
    (cache : List (String × String)) (sub question a : String)
    (h : questions_get sub question = some a) :
    get_answer true gen cache sub question =
      { answer := a, cache := cache, persisted := false, invoked := false } := by
  have hne := questions_get_ne_empty h
  unfold get_answer
  simp [h, hne]

/-- Claim C1, witness for `get_answer_bank_hit`. -/
theorem get_answer_bank_hit_wit :
    get_answer true GenResult.err [("What is 2+2?", "five")] "Math" "What is 2+2?" =
      { answer := "2+2 = 4", cache := [("What is 2+2?", "five")],
        persisted := false, invoked := false } :=
  get_answer_bank_hit GenResult.err [("What is 2+2?", "five")] "Math"
    "What is 2+2?" "2+2 = 4" rfl

/-! ## Claim C2: empty generation result -/

/-- Claim C2, counterexample: when the capability call succeeds but the
trimmed result is empty, the code returns the sentinel message but also
stores the empty string in the cache and rewrites the cache file — the
cache mapping after the call differs from the one before it. -/
theorem get_answer_empty_cached_cex :
    get_answer true (GenResult.ok "   ") [] "Math" "Q?" =
      { answer := "Sorry, AI could not generate an answer.",
        cache := [("Q?", "")], persisted := true, invoked := true }
    ∧ ([("Q?", "")] : List (String × String)) ≠ [] := by
  refine ⟨by decide, by decide⟩

/-- Claim C2 (amended): if the generation call succeeds but the trimmed
result is the empty string, `get_answer` returns the fixed sentinel
message, yet it does add the empty string to the cache under the
question key and persists the cache before returning. -/
theorem get_answer_empty_result (cache : List (String × String))
    (sub question text : String)
    (hbank : questions_get sub question = none ∨ questions_get sub question = some "")
    (hc : cache.lookup question = none)
    (ht : pyStrip text = "") :
    get_answer true (GenResult.ok text) cache sub question =
      { answer := "Sorry, AI could not generate an answer.",
        cache := dictInsert cache question "",
        persisted := true, invoked := true } := by
  unfold get_answer
  rcases hbank with hb | hb <;> simp [hb, get_answer_tail, hc, ht]

/-- Claim C2, witness for `get_answer_empty_result`. -/
theorem get_answer_empty_result_wit :
    get_answer true (GenResult.ok "  ") [("other", "x")] "Math" "Q?" =
      { answer := "Sorry, AI could not generate an answer.",
        cache := dictInsert [("other", "x")] "Q?" "",
        persisted := true, invoked := true } :=
  get_answer_empty_result [("other", "x")] "Math" "Q?" "  "
    (Or.inl rfl) rfl rfl

/-! ## Claim C5: cache hits -/

/-- Claim C5, counterexample: a cached question is not answered from the
cache in every capability state — with the capability unconfigured the
fixed unavailability message is returned instead, and a cached question
that is also in the bank for the given subject is answered from the
bank, not the cache. -/
theorem get_answer_cache_cex :
    ([("Q1", "A1")] : List (String × String)).lookup "Q1" = some "A1"
    ∧ (get_answer false GenResult.err [("Q1", "A1")] "Math" "Q1").answer ≠ "A1"
    ∧ (get_answer true GenResult.err [("What is 2+2?", "five")] "Math"
        "What is 2+2?").answer ≠ "five" := by
  refine ⟨rfl, by decide, by decide⟩

/-- Claim C5 (amended): when the generation capability is configured and
the (subject, question) pair does not score a (truthy) question-bank
hit, a question present in the cache is answered with the cached value
verbatim; generation is not invoked and the cache is not modified or
rewritten. -/
theorem get_answer_cache_hit (gen : GenResult)
    (cache : List (String × String)) (sub question v : String)
    (hbank : questions_get sub question = none ∨ questions_get sub question = some "")
    (hc : cache.lookup question = some v) :
    get_answer true gen cache sub question =
      { answer := v, cache := cache, persisted := false, invoked := false } := by
  unfold get_answer
  rcases hbank with hb | hb <;> simp [hb, get_answer_tail, hc]

/-- Claim C5, witness for `get_answer_cache_hit`. -/
theorem get_answer_cache_hit_wit :
    get_answer true GenResult.err [("Q9", "A9")] "Math" "Q9" =
      { answer := "A9", cache := [("Q9", "A9")],
        persisted := false, invoked := false } :=
  get_answer_cache_hit GenResult.err [("Q9", "A9")] "Math" "Q9" "A9"
    (Or.inl rfl) rfl

/-! ## Claim C6: generation failure -/

/-- Claim C6 (confirmed): when the run reaches the generation step (bank
miss, cache miss) and the capability call fails, `get_answer` returns
the fixed failure sentinel, adds nothing to the cache, and does not
rewrite the persisted cache.  The embedding is a total function, which
models that no exception propagates to the caller. -/
theorem get_answer_gen_failure (cache : List (String × String))
    (sub question : String)
    (hbank : questions_get sub question = none ∨ questions_get sub question = some "")
    (hc : cache.lookup question = none) :
    get_answer true GenResult.err cache sub question =
      { answer := "Sorry, the answer could not be generated.",
        cache := cache, persisted := false, invoked := true } := by
  unfold get_answer
  rcases hbank with hb | hb <;> simp [hb, get_answer_tail, hc]

/-- Claim C6, witness for `get_answer_gen_failure`. -/
theorem get_answer_gen_failure_wit :
    get_answer true GenResult.err [("other", "x")] "Math" "Q?" =
      { answer := "Sorry, the answer could not be generated.",
        cache := [("other", "x")], persisted := false, invoked := true } :=
  get_answer_gen_failure [("other", "x")] "Math" "Q?" (Or.inl rfl) rfl

/-! ## Claim C7: MCQ generator fallback -/

/-- Claim C7 (confirmed): on every failure path of the MCQ generator —
capability unavailable, capability call raising, no JSON array
extractable from the response text, the extracted slice failing to
parse, the parsed value not being iterable, or zero parsed elements
surviving validation — `generate_ai_mcqs` returns exactly
`num_questions` deterministic placeholder MCQs, each carrying the four
fixed option labels with the answer equal to the first option.  The
embedding is a total function, which models that no error propagates to
the caller. -/
theorem generate_ai_mcqs_fallback (parse : String → Option Json)
    (outcome : GenOutcome) (subject : String) (n : Nat)
    (h : outcome = .unavailable ∨ outcome = .raised
      ∨ (∃ t, outcome = .ok t ∧ extractArray t = none)
      ∨ (∃ t s, outcome = .ok t ∧ extractArray t = some s ∧ parse s = none)
      ∨ (∃ t s j, outcome = .ok t ∧ extractArray t = some s ∧ parse s = some j
          ∧ iterElems j = none)
      ∨ (∃ t s j elems, outcome = .ok t ∧ extractArray t = some s ∧ parse s = some j
          ∧ iterElems j = some elems ∧ elems.filter isValidMCQ = [])) :
    generate_ai_mcqs parse outcome subject n = fallbackMCQs subject n
    ∧ (generate_ai_mcqs parse outcome subject n).length = n
    ∧ ∀ q ∈ generate_ai_mcqs parse outcome subject n,
        ∃ opts, jsonGet q "options" = some (.arr opts)
          ∧ opts = [.str "Option A", .str "Option B", .str "Option C", .str "Option D"]
          ∧ jsonGet q "answer" = opts.head? := by
  have heq : generate_ai_mcqs parse outcome subject n = fallbackMCQs subject n := by
    rcases h with rfl | rfl | ⟨t, rfl, he⟩ | ⟨t, s, rfl, he, hp⟩
      | ⟨t, s, j, rfl, he, hp, hi⟩ | ⟨t, s, j, elems, rfl, he, hp, hi, hv⟩ <;>
      simp_all [generate_ai_mcqs, List.isEmpty_iff]
  refine ⟨heq, ?_, ?_⟩
  · rw [heq]; simp [fallbackMCQs]
  · rw [heq]
    intro q hq
    simp only [fallbackMCQs, List.mem_map, List.mem_range] at hq
    obtain ⟨i, -, rfl⟩ := hq
    exact ⟨_, rfl, rfl, rfl⟩

/-- Claim C7, witness for `generate_ai_mcqs_fallback`. -/
theorem generate_ai_mcqs_fallback_wit :
    generate_ai_mcqs (fun _ => none) GenOutcome.raised "Math" 5 =
      fallbackMCQs "Math" 5
    ∧ (generate_ai_mcqs (fun _ => none) GenOutcome.raised "Math" 5).length = 5
    ∧ ∀ q ∈ generate_ai_mcqs (fun _ => none) GenOutcome.raised "Math" 5,
        ∃ opts, jsonGet q "options" = some (.arr opts)
          ∧ opts = [.str "Option A", .str "Option B", .str "Option C", .str "Option D"]
          ∧ jsonGet q "answer" = opts.head? :=
  generate_ai_mcqs_fallback (fun _ => none) GenOutcome.raised "Math" 5
    (Or.inr (Or.inl rfl))

/-! ## Schedule helper lemmas and concrete states -/

/-- Round-half-to-even never exceeds the ceiling. -/
lemma rhe_le_ceil (q : ℚ) : rhe q ≤ ⌈q⌉ := by
  unfold rhe
  split_ifs with h1 h2 h3
  · exact Int.floor_le_ceil q
  · have hq : (⌊q⌋ : ℚ) < q := by linarith
    have := Int.lt_ceil.mpr hq
    omega
  · exact Int.floor_le_ceil q
  · have hr : q - ⌊q⌋ = 1 / 2 := le_antisymm (not_lt.mp h2) (not_lt.mp h1)
    have hq : (⌊q⌋ : ℚ) < q := by linarith
    have := Int.lt_ceil.mpr hq
    omega

/-- Rounding to one decimal place preserves the 100 bound. -/
lemma round1_le_100 (q : ℚ) (h : q ≤ 100) : round1 q ≤ 100 := by
  unfold round1
  have h1 : rhe (q * 10) ≤ ⌈q * 10⌉ := rhe_le_ceil _
  have h2 : ⌈q * 10⌉ ≤ 1000 := by
    have : ⌈q * 10⌉ ≤ ⌈(1000 : ℚ)⌉ := Int.ceil_le_ceil (by linarith)
    simpa using this
  have h3 : (rhe (q * 10) : ℚ) ≤ 1000 := by exact_mod_cast le_trans h1 h2
  linarith

/-- The id sequence of a create-only store is `1, 2, ..., n`. -/
lemma reachCreate_ids (st : SchedState) (h : ReachCreate st) :
    st.store.map (fun s => s.id) = List.range' 1 st.store.length := by
  induction h with
  | empty => rfl
  | create today plan st et cn w hpd subs sd hr ih =>
    show ((st.store ++ [_]).map _) = List.range' 1 (st.store ++ [_]).length
    rw [List.map_append, List.length_append, ih]
    simp [List.range'_concat, Nat.add_comm]

/-- Removing the derived fields `view_schedule` assigns. -/
def clearDerived (s : StudySchedule) : StudySchedule :=
  { s with current_week := none, progress := none }

/-- Replacing the first match with a record that differs only in derived
fields leaves the cleared collection unchanged. -/
lemma map_clearDerived_updateFirst (l : List StudySchedule)
    (p : StudySchedule → Bool) (s s2 : StudySchedule)
    (hf : l.find? p = some s) (hs2 : clearDerived s2 = clearDerived s) :
    (updateFirst p (fun _ => s2) l).map clearDerived = l.map clearDerived := by
  induction l with
  | nil => simp at hf
  | cons a t ih =>
    by_cases hp : p a
    · rw [List.find?_cons_of_pos _ hp] at hf
      injection hf with hf
      subst hf
      simp [updateFirst, hp, hs2]
    · rw [List.find?_cons_of_neg _ hp] at hf
      simp [updateFirst, hp, ih hf]

/-- When at most one record matches, the filter-based delete coincides
with removing the first match. -/
lemma filter_ne_eq_eraseP (l : List StudySchedule) (sid : Nat)
    (h : l.countP (fun s => s.id == sid) ≤ 1) :
    l.filter (fun s => s.id ≠ sid) = l.eraseP (fun s => s.id == sid) := by
  induction l with
  | nil => rfl
  | cons a t ih =>
    rw [List.countP_cons] at h
    by_cases ha : a.id = sid
    · simp only [ha, beq_self_eq_true, if_true] at h
      have ht : t.countP (fun s => s.id == sid) = 0 := by omega
      simp [List.filter_cons, List.eraseP_cons, ha]
      intro b hb
      simpa using List.countP_eq_zero.mp ht b hb
    · have ht : t.countP (fun s => s.id == sid) ≤ 1 := by
        simp only [ha, beq_iff_eq, if_false] at h
        omega
      rw [List.filter_cons_of_pos (by simpa using ha),
        List.eraseP_cons_of_neg (by simpa using ha), ih ht]

/-- A concrete stored schedule used by witnesses and counterexamples. -/
def sBase : StudySchedule :=
  { id := 1, name := "Custom Study Plan", exam_type := "Custom",
    subjects := [], weeks := 12, hours_per_day := 4, created_date := 0,
    start_date := 0, status := "active", ai_plan := none,
    current_week := none, progress := none }

/-- `sBase` with a start date 7 days in the future of day 0. -/
def sFut : StudySchedule := { sBase with start_date := 7 }

/-- A reachable state holding two records that share id 2: create,
create, delete id 1, create. -/
def dupState : SchedState :=
  (create_schedule 0 none
    (delete_schedule
      (create_schedule 0 none
        (create_schedule 0 none ⟨[], []⟩ "Custom" "A" 12 4 [] none).2
        "Custom" "B" 12 4 [] none).2
      1)
    "Custom" "C" 12 4 [] none).2

/-! ## Claim C3: view is not read-only on the stored record -/

/-- Claim C3, counterexample: a successful `view_schedule` writes
`current_week` into the stored record itself (the store afterwards
holds `some 2` where the record had no such field), and a later
persistence of the collection — here a delete of a different id —
writes that derived field to the schedule file. -/
theorem view_schedule_mutation_cex :
    sBase.current_week = none
    ∧ (view_schedule 7 ⟨[sBase], [sBase]⟩ 1).toOption.map
        (fun p => p.2.store.map (fun s => s.current_week)) = some [some 2]
    ∧ (view_schedule 7 ⟨[sBase], [sBase]⟩ 1).toOption.map
        (fun p => (delete_schedule p.2 99).file.map (fun s => s.current_week))
      = some [some 2] :=
  ⟨rfl, rfl, rfl⟩

/-- Claim C3 (amended): whenever `view_schedule` succeeds, it persists
nothing (the schedule file of the resulting state equals the one
before), and it changes no field of any stored record other than the
derived `current_week` and `progress` fields — which it does write into
the stored in-memory record, so a later persistence of the collection
writes them to the schedule file. -/
theorem view_schedule_frame (today : Int) (st : SchedState) (sid : Nat) :
    (view_schedule today st sid).toOption.map
        (fun p => (p.2.file, p.2.store.map clearDerived))
      = (view_schedule today st sid).toOption.map
        (fun _ => (st.file, st.store.map clearDerived)) := by
  unfold view_schedule
  cases hf : st.store.find? (fun s => s.id == sid) with
  | none => rfl
  | some s =>
    by_cases hw : s.weeks = 0
    · simp only [hw, if_true]
      rfl
    · simp only [hw, if_false, Except.toOption, Option.map]
      exact congrArg some (congrArg _
        (map_clearDerived_updateFirst st.store _ s _ hf rfl))

/-! ## Claim C4: schedule id uniqueness -/

/-- Claim C4, counterexample: the state reached from the empty store by
create, create, delete id 1, create holds two records that both carry
id 2 — id assignment by `len(study_schedules) + 1` reuses ids after a
deletion, so uniqueness fails on reachable states. -/
theorem schedule_id_collision_cex :
    Reach dupState
    ∧ dupState.store.map (fun s => s.id) = [2, 2]
    ∧ ¬ (dupState.store.map (fun s => s.id)).Nodup := by
  refine ⟨?_, rfl, by decide⟩
  exact Reach.create _ _ _ _ _ _ _ _ _
    (Reach.delete _ _
      (Reach.create _ _ _ _ _ _ _ _ _
        (Reach.create _ _ _ _ _ _ _ _ _ Reach.empty)))

/-- Claim C4 (amended): in every state reachable from the empty store
by create operations alone (no deletions), the ids of the stored
schedules are pairwise distinct. -/
theorem reachCreate_ids_nodup (st : SchedState) (h : ReachCreate st) :
    (st.store.map (fun s => s.id)).Nodup := by
  rw [reachCreate_ids st h]
  exact List.nodup_range' 1 st.store.length

/-- Claim C4, witness for `reachCreate_ids_nodup`. -/
theorem reachCreate_ids_nodup_wit :
    (((create_schedule 0 none
        (create_schedule 0 none ⟨[], []⟩ "Custom" "A" 12 4 [] none).2
        "Custom" "B" 12 4 [] none).2).store.map (fun s => s.id)).Nodup :=
  reachCreate_ids_nodup _
    (ReachCreate.create 0 none _ "Custom" "B" 12 4 [] none
      (ReachCreate.create 0 none ⟨[], []⟩ "Custom" "A" 12 4 [] none
        ReachCreate.empty))

/-! ## Claim C8: progress computation -/

/-- Claim C8, counterexample: for a stored schedule whose start date
lies 7 days in the future of the evaluation date, `view_schedule`
computes `current_week = 0`, which falls below 1 — floor division of
the negative day difference is not clamped below. -/
theorem view_schedule_week_below_one_cex :
    (view_schedule 0 ⟨[sFut], [sFut]⟩ 1).toOption.map (fun p => p.1.current_week)
      = some (some 0)
    ∧ ((0 : ℤ) < 1) :=
  ⟨rfl, by decide⟩

/-- Claim C8 (amended): for every stored schedule with a nonzero
`weeks` field and every evaluation date, `view_schedule` computes
`currentWeek = min(daysElapsed // 7 + 1, weeks)` — clamped above by the
total weeks, though it can fall below 1 when the start date lies in the
future — and `progressPercent = round1(min(currentWeek / weeks * 100,
100))`, which never exceeds 100. -/
theorem view_schedule_progress_formula (today : Int) (st : SchedState)
    (sid : Nat) (s : StudySchedule)
    (hf : st.store.find? (fun r => r.id == sid) = some s)
    (hw : s.weeks ≠ 0) :
    (let cw : ℤ := min ((today - s.start_date).fdiv 7 + 1) s.weeks
     let pr : ℚ := round1 (min ((cw : ℚ) / (s.weeks : ℚ) * 100) 100)
     let s2 : StudySchedule := { s with current_week := some cw, progress := some pr }
     view_schedule today st sid =
        .ok (s2, { st with store := updateFirst (fun r => r.id == sid) (fun _ => s2) st.store })
      ∧ cw ≤ s.weeks
      ∧ pr ≤ 100) := by
  refine ⟨?_, min_le_right _ _, round1_le_100 _ (min_le_right _ _)⟩
  unfold view_schedule
  cases hf2 : st.store.find? (fun r => r.id == sid) with
  | none => rw [hf2] at hf; exact absurd hf (by simp)
  | some s2 =>
    rw [hf2] at hf
    injection hf with hf
    subst hf
    simp only [hw, if_false]

/-- Claim C8, witness for `view_schedule_progress_formula`. -/
theorem view_schedule_progress_formula_wit :
    min ((7 - sBase.start_date).fdiv 7 + 1) sBase.weeks ≤ sBase.weeks
    ∧ round1 (min (((min ((7 - sBase.start_date).fdiv 7 + 1) sBase.weeks : ℤ) : ℚ)
        / (sBase.weeks : ℚ) * 100) 100) ≤ 100 :=
  (view_schedule_progress_formula 7 ⟨[sBase], [sBase]⟩ 1 sBase rfl (by decide)).2

/-! ## Claim C9: delete semantics -/

/-- Claim C9, counterexample: on a reachable state holding two records
with id 2, `delete_schedule 2` removes both of them (the code filters
out every match), leaving 0 records, whereas removing only the first
matching record would leave 1. -/
theorem delete_schedule_first_only_cex :
    dupState.store.map (fun s => s.id) = [2, 2]
    ∧ (delete_schedule dupState 2).store.length = 0
    ∧ (removeFirstSpec dupState.store 2).length = 1
    ∧ Reach dupState := by
  refine ⟨rfl, rfl, rfl, ?_⟩
  exact Reach.create _ _ _ _ _ _ _ _ _
    (Reach.delete _ _
      (Reach.create _ _ _ _ _ _ _ _ _
        (Reach.create _ _ _ _ _ _ _ _ _ Reach.empty)))

/-- Claim C9 (amended): `delete_schedule` removes every record whose id
matches (coinciding with removal of the first match whenever at most
one record matches, in particular on stores with unique ids), keeps all
other records in order, persists the full collection, and is a no-op on
the collection — raising no error — when no record matches. -/
theorem delete_schedule_spec (st : SchedState) (sid : Nat) :
    (delete_schedule st sid).file = (delete_schedule st sid).store
    ∧ (∀ r ∈ (delete_schedule st sid).store, r ∈ st.store ∧ r.id ≠ sid)
    ∧ (∀ r ∈ st.store, r.id ≠ sid → r ∈ (delete_schedule st sid).store)
    ∧ (delete_schedule st sid).store.Sublist st.store
    ∧ ((∀ r ∈ st.store, r.id ≠ sid) → (delete_schedule st sid).store = st.store)
    ∧ (st.store.countP (fun s => s.id == sid) ≤ 1 →
        (delete_schedule st sid).store = removeFirstSpec st.store sid) := by
  have hst : (delete_schedule st sid).store
      = st.store.filter (fun s => s.id ≠ sid) := rfl
  refine ⟨rfl, ?_, ?_, ?_, ?_, ?_⟩
  · intro r hr
    rw [hst, List.mem_filter] at hr
    exact ⟨hr.1, by simpa using hr.2⟩
  · intro r hr hne
    rw [hst, List.mem_filter]
    exact ⟨hr, by simpa using hne⟩
  · rw [hst]
    exact List.filter_sublist _
  · intro h
    rw [hst, List.filter_eq_self]
    intro r hr
    simpa using h r hr
  · intro h
    rw [hst, filter_ne_eq_eraseP st.store sid h]
    rfl

/-- Claim C9, witness for `delete_schedule_spec`. -/
theorem delete_schedule_spec_wit :
    (delete_schedule ⟨[sBase], [sBase]⟩ 1).store
        = removeFirstSpec (⟨[sBase], [sBase]⟩ : SchedState).store 1
    ∧ (delete_schedule ⟨[sBase], [sBase]⟩ 99).store
        = (⟨[sBase], [sBase]⟩ : SchedState).store :=
  ⟨(delete_schedule_spec ⟨[sBase], [sBase]⟩ 1).2.2.2.2.2 (by decide),
   (delete_schedule_spec ⟨[sBase], [sBase]⟩ 99).2.2.2.2.1 (by decide)⟩

/-! ## Claim C10: division by zero on weeks -/

/-- `sBase` with a zero `weeks` field, as `create_schedule` stores when
the form supplies `weeks = 0`. -/
def sZero : StudySchedule := { sBase with weeks := 0 }

/-- Claim C10 (confirmed): the progress computation divides by the
record's `weeks` field with no zero-guard while `create_schedule`
stores any supplied `weeks` verbatim, so `view_schedule` on an existing
record succeeds whenever `weeks ≠ 0`, fails with the division error
when `weeks = 0`, and a schedule with `weeks = 0` is creatable — on the
store just created with `weeks = 0`, viewing the new record fails. -/
theorem view_schedule_weeks_zero :
    (∀ (today : Int) (st : SchedState) (sid : Nat) (s : StudySchedule),
      st.store.find? (fun r => r.id == sid) = some s → s.weeks ≠ 0 →
      (view_schedule today st sid).toOption.isSome = true)
    ∧ (∀ (today : Int) (st : SchedState) (sid : Nat) (s : StudySchedule),
      st.store.find? (fun r => r.id == sid) = some s → s.weeks = 0 →
      view_schedule today st sid = .error "ZeroDivisionError")
    ∧ (create_schedule 0 none ⟨[], []⟩ "Custom" "X" 0 4 [] none).1.weeks = 0
    ∧ view_schedule 0 (create_schedule 0 none ⟨[], []⟩ "Custom" "X" 0 4 [] none).2 1
        = .error "ZeroDivisionError" := by
  refine ⟨?_, ?_, rfl, rfl⟩
  · intro today st sid s hf hw
    unfold view_schedule
    cases hf2 : st.store.find? (fun r => r.id == sid) with
    | none => rw [hf2] at hf; exact absurd hf (by simp)
    | some s2 =>
      rw [hf2] at hf
      injection hf with hf
      subst hf
      simp only [hw, if_false]
      rfl
  · intro today st sid s hf hw
    unfold view_schedule
    cases hf2 : st.store.find? (fun r => r.id == sid) with
    | none => rw [hf2] at hf; exact absurd hf (by simp)
    | some s2 =>
      rw [hf2] at hf
      injection hf with hf
      subst hf
      simp only [hw, if_true]

/-- Claim C10, witness for `view_schedule_weeks_zero`. -/
theorem view_schedule_weeks_zero_wit :
    (view_schedule 0 ⟨[sBase], [sBase]⟩ 1).toOption.isSome = true
    ∧ view_schedule 0 ⟨[sZero], [sZero]⟩ 1 = .error "ZeroDivisionError" :=
  ⟨view_schedule_weeks_zero.1 0 ⟨[sBase], [sBase]⟩ 1 sBase rfl (by decide),
   view_schedule_weeks_zero.2.1 0 ⟨[sZero], [sZero]⟩ 1 sZero rfl rfl⟩
